import Mathlib

/-
  Verification development for the model-hub-cli scoring engine.

  The definitions below are a shallow embedding of the Python sources:
    src/Model.py, src/ModelCatalogue.py, src/main.py,
    src/util/url_utils.py, src/metrics/LicenseMetric.py,
    src/metrics/BusFactorMetric.py, src/metrics/SizeMetric.py,
    src/metrics/CodeQualityMetric.py.
  Machine floats are embedded as exact rationals; Python exceptions are
  embedded as `Except` errors; Python dicts keyed by strings are embedded
  as association lists with insert-or-replace update.
-/

namespace ModelHub

/-- Python exception kinds that the embedded code can raise. -/
inductive PyError where
  | nameError
  | valueError
  | attributeError
deriving DecidableEq, Repr

/-- Lookup in an association list, modelling Python `dict.get(key)` /
`dict[key]` for string-keyed dicts (keys are unique in a Python dict, so
first match is the match). -/
def dictLookup {α : Type} : List (String × α) → String → Option α
  | [], _ => none
  | (k, v) :: rest, key => if k = key then some v else dictLookup rest key

/-- Insert-or-replace update, modelling Python `d[key] = v`: a present key
keeps its position, a new key is appended (Python 3.7+ dict order). -/
def dictSet {α : Type} : List (String × α) → String → α → List (String × α)
  | [], key, v => [(key, v)]
  | (k, w) :: rest, key, v =>
      if k = key then (key, v) :: rest else (k, w) :: dictSet rest key v

theorem dictLookup_dictSet_self {α : Type} (l : List (String × α)) (k : String) (v : α) :
    dictLookup (dictSet l k v) k = some v := by
  induction l with
  | nil => simp [dictSet, dictLookup]
  | cons p rest ih =>
      by_cases h : p.1 = k
      · simp [dictSet, h, dictLookup]
      · simp [dictSet, h, dictLookup, ih]

theorem dictLookup_mem {α : Type} {l : List (String × α)} {key : String} {v : α}
    (h : dictLookup l key = some v) : ∃ k, (k, v) ∈ l := by
  induction l with
  | nil => simp [dictLookup] at h
  | cons p rest ih =>
      by_cases hk : p.1 = key
      · refine ⟨p.1, ?_⟩
        simp [dictLookup, hk] at h
        simp [← h]
      · simp [dictLookup, hk] at h
        obtain ⟨k, hm⟩ := ih h
        exact ⟨k, List.mem_cons_of_mem _ hm⟩

theorem dictSet_filter_ne {α : Type} (l : List (String × α)) (k : String) (v : α) :
    (dictSet l k v).filter (fun p => p.1 ≠ k) = l.filter (fun p => p.1 ≠ k) := by
  induction l with
  | nil => simp [dictSet]
  | cons p rest ih =>
      by_cases h : p.1 = k
      · simp [dictSet, h, List.filter]
      · simp only [dictSet, h, if_false, ite_false]
        simp only [List.filter, h, ne_eq, decide_not]
        simpa [ne_eq, decide_not] using ih

/-! ## License metric (src/metrics/LicenseMetric.py) -/

/-- The fixed three-tier table `LicenseMetric.LICENSE_COMPATIBILITY`
(LicenseMetric.py lines 9-26), with float scores embedded as rationals. -/
def LICENSE_COMPATIBILITY : List (String × ℚ) :=
  [("MIT", 1), ("BSD-2-Clause", 1), ("BSD-3-Clause", 1), ("LGPL-2.1", 1),
   ("LGPL-2.1-or-later", 1), ("GPL-2.0-or-later", 1),
   ("GPL-2.0", 1/2), ("MPL-2.0", 1/2), ("Unlicense", 1/2),
   ("Apache-2.0", 0), ("GPL-3.0", 0), ("LGPL-3.0", 0), ("AGPL-3.0", 0),
   ("Proprietary", 0)]

/-- Step 3 of `LicenseMetric.evaluate` (LicenseMetric.py line 69):
`self.LICENSE_COMPATIBILITY.get(license_id, 0.5)`. The resolved license id
may be `None` (no lookup succeeded) or any string returned by the metadata
helpers; the dict lookup is an exact (case-sensitive) key match. -/
def licenseScoreOfId (licenseId : Option String) : ℚ :=
  match licenseId with
  | none => 1/2
  | some s => (dictLookup LICENSE_COMPATIBILITY s).getD (1/2)

theorem dictLookup_all {α : Type} {P : α → Prop} :
    ∀ (l : List (String × α)), (∀ p ∈ l, P p.2) →
      ∀ key v, dictLookup l key = some v → P v := by
  intro l hl key v h
  obtain ⟨k, hm⟩ := dictLookup_mem h
  exact hl (k, v) hm

/-- C4 counterexample: the claim asserts a case-insensitive mapping, so the
identifier "mit" (which is "MIT", a compatible-tier entry, up to case) would
have to score 1.0; the code's exact dict lookup misses it and yields the
unknown-license default 0.5. -/
theorem licenseScore_not_case_insensitive :
    dictLookup LICENSE_COMPATIBILITY "MIT" = some 1 ∧
    licenseScoreOfId (some "mit") = 1/2 ∧ (1/2 : ℚ) ≠ 1 := by
  refine ⟨rfl, rfl, by norm_num⟩

/-- C4 (amended): the license metric maps the resolved identifier through the
fixed three-tier table by exact case-sensitive lookup — every table entry
scores its tier value, any unknown or missing identifier scores 0.5 — and the
result is always one of 0.0, 0.5, 1.0. -/
theorem licenseScore_tier_table :
    (licenseScoreOfId none = 1/2) ∧
    (∀ s, dictLookup LICENSE_COMPATIBILITY s = none →
        licenseScoreOfId (some s) = 1/2) ∧
    (∀ s v, dictLookup LICENSE_COMPATIBILITY s = some v →
        licenseScoreOfId (some s) = v) ∧
    (∀ licenseId, licenseScoreOfId licenseId = 0 ∨
        licenseScoreOfId licenseId = 1/2 ∨ licenseScoreOfId licenseId = 1) := by
  refine ⟨rfl, ?_, ?_, ?_⟩
  · intro s h
    simp [licenseScoreOfId, h]
  · intro s v h
    simp [licenseScoreOfId, h]
  · intro licenseId
    match licenseId with
    | none => right; left; rfl
    | some s =>
        cases h : dictLookup LICENSE_COMPATIBILITY s with
        | none => right; left; simp [licenseScoreOfId, h]
        | some v =>
            have hv : v = 0 ∨ v = 1/2 ∨ v = 1 := by
              refine dictLookup_all (P := fun v => v = 0 ∨ v = 1/2 ∨ v = 1)
                LICENSE_COMPATIBILITY ?_ s v h
              intro p hp
              fin_cases hp <;> norm_num
            simpa [licenseScoreOfId, h] using hv

/-- C4 witness: the amended theorem applied to concrete identifiers — the
unseen identifier "Zlib" scores 0.5, the incompatible-tier "Apache-2.0"
scores 0.0, and the compatible-tier "MIT" scores 1.0. -/
theorem licenseScore_tier_table_witness :
    licenseScoreOfId (some "Zlib") = 1/2 ∧
    licenseScoreOfId (some "Apache-2.0") = 0 ∧
    licenseScoreOfId (some "MIT") = 1 :=
  ⟨licenseScore_tier_table.2.1 "Zlib" rfl,
   licenseScore_tier_table.2.2.1 "Apache-2.0" 0 rfl,
   licenseScore_tier_table.2.2.1 "MIT" 1 rfl⟩

/-! ## Python string primitives

The Python stdlib string operations the sources use (`str.strip`,
`str.lower`, `str.split`, `str.startswith`, `urllib.parse.urlparse`) are
modelled with structurally recursive functions over the character list of a
`String`, so every embedded definition evaluates by kernel reduction. -/

/-- Modelled from `str.lower` (ASCII-relevant part). -/
def strLower (s : String) : String := String.mk (s.data.map Char.toLower)

/-- Drop leading whitespace characters. -/
def dropLeadingWs : List Char → List Char
  | [] => []
  | c :: cs => if c.isWhitespace then dropLeadingWs cs else c :: cs

/-- Modelled from `str.strip()`: remove leading and trailing whitespace. -/
def strTrim (s : String) : String :=
  String.mk (dropLeadingWs ((dropLeadingWs s.data.reverse).reverse))

/-- Split a character list on a separator character; the result always has
one more group than there are separators, as in Python `str.split(sep)`. -/
def splitChar (sep : Char) : List Char → List (List Char)
  | [] => [[]]
  | c :: cs =>
      if c = sep then [] :: splitChar sep cs
      else match splitChar sep cs with
           | [] => [[c]]
           | g :: gs => (c :: g) :: gs

/-- Modelled from `str.split(sep)` for a one-character separator. -/
def strSplitOn (sep : Char) (s : String) : List String :=
  (splitChar sep s.data).map String.mk

/-- Boolean character-list prefix test (for `str.startswith`). -/
def isPrefixOfChars : List Char → List Char → Bool
  | [], _ => true
  | _, [] => false
  | a :: as, b :: bs => a = b && isPrefixOfChars as bs

/-- Modelled from `str.startswith(pre)`. -/
def strStartsWith (s pre : String) : Bool := isPrefixOfChars pre.data s.data

/-- Split at the first occurrence of a character, if any. -/
def splitFirstChar (sep : Char) : List Char → Option (List Char × List Char)
  | [] => none
  | c :: cs =>
      if c = sep then some ([], cs)
      else (splitFirstChar sep cs).map (fun p => (c :: p.1, p.2))

/-- Take characters up to (excluding) the first occurrence of a separator;
returns the prefix and the remainder starting at the separator. -/
def takeUntilChar (sep : Char) : List Char → List Char × List Char
  | [] => ([], [])
  | c :: cs =>
      if c = sep then ([], c :: cs)
      else
        let p := takeUntilChar sep cs
        (c :: p.1, p.2)

/-- Netloc and path of a URL, modelled from the Python stdlib
`urllib.parse.urlparse` restricted to the `scheme://netloc/path` shapes the
program feeds it: after `scheme:` a `//` introduces the netloc, which runs
to the next `/`; the rest (with its leading slash) is the path. A URL
without a `scheme://` part has an empty netloc. -/
def urlNetlocPath (url : String) : String × String :=
  match splitFirstChar ':' url.data with
  | some (_scheme, '/' :: '/' :: r) =>
      let p := takeUntilChar '/' r
      (String.mk p.1, String.mk p.2)
  | _ => ("", url)

/-! ## URL utilities (src/util/url_utils.py) -/

/-- The `URLSet` namedtuple: a required model URL plus optional code and
dataset URLs. -/
structure URLSet where
  model : String
  code : Option String
  dataset : Option String
deriving DecidableEq, Repr

/-- The module-level set `_MISSING_TOKENS`. -/
def MISSING_TOKENS : List String := ["", "none", "null", "na", "n/a"]

/-- The helper `_normalize_missing_token`: trim, then convert common
missing-markers (case-insensitively) to `none`; otherwise keep the trimmed
token (an empty trimmed token also becomes `none`). -/
def normalize_missing_token (token : String) : Option String :=
  let t := strTrim token
  if strLower t ∈ MISSING_TOKENS then none
  else if t = "" then none
  else some t

/-- The classifier `classify_url`: decide model / dataset / code from host
and path shape, raising `ValueError` (embedded as `.error`) on empty input,
missing host, or an unsupported domain. -/
def classify_url (url : String) : Except String String :=
  if strTrim url = "" then .error "Input must be a non-empty URL string."
  else
    let parsed := urlNetlocPath (strTrim url)
    let netloc := parsed.1
    let path := parsed.2
    if netloc = "" then .error "Malformed URL"
    else if netloc = "huggingface.co" then
      if strStartsWith path "/datasets/" then .ok "dataset"
      else if strStartsWith path "/" then .ok "model"
      else .error "Unknown Hugging Face URL"
    else if netloc = "github.com" then .ok "code"
    else .error "Unknown or unsupported URL domain"

/-- The no-op soft check `_log_if_domain_mismatch` (url_utils.py lines
17-28): its body is commented out in the source, so it inspects nothing,
never raises and never reshuffles; `parse_urls_by_position` calls it on the
code and dataset slots to no effect. -/
def log_if_domain_mismatch (_slot : String) (_url : Option String) : Unit := ()

/-- Item `i` of the input after padding to three entries:
`(urls + ["", "", ""])[:3][i]` (url_utils.py line 152). -/
def paddedSlot (urls : List String) (i : ℕ) : String :=
  ((urls ++ ["", "", ""]).take 3).getD i ""

/-- The position-driven bundler `parse_urls_by_position` (url_utils.py lines
137-166): fixed order [code, dataset, model], pad to three entries, strip
missing-tokens, never reshuffle, require the model (3rd) slot. -/
def parse_urls_by_position (urls : List String) : Except String URLSet :=
  if urls.isEmpty then
    .error "Expected 1-3 comma-separated items in order: code,dataset,model."
  else if urls.length > 3 then
    .error "At most 3 items allowed (code,dataset,model)."
  else
    let codeUrl := normalize_missing_token (paddedSlot urls 0)
    let datasetUrl := normalize_missing_token (paddedSlot urls 1)
    let _ := log_if_domain_mismatch "code" codeUrl
    let _ := log_if_domain_mismatch "dataset" datasetUrl
    match normalize_missing_token (paddedSlot urls 2) with
    | none => .error "Model URL (3rd position) is required."
    | some m => .ok ⟨m, codeUrl, datasetUrl⟩

/-- C9 counterexample: a bundle whose code slot holds a URL classified as a
model and whose model slot holds a URL classified as code is accepted as-is;
the claimed expected-vs-detected-role validation never happens (the domain
check is a no-op), so no error is raised on the mismatch. -/
theorem parse_urls_no_role_validation :
    parse_urls_by_position
        ["https://huggingface.co/org/model", "none", "https://github.com/org/repo"]
      = .ok ⟨"https://github.com/org/repo", some "https://huggingface.co/org/model", none⟩ ∧
    classify_url "https://huggingface.co/org/model" = .ok "model" ∧
    classify_url "https://github.com/org/repo" = .ok "code" := by
  refine ⟨rfl, rfl, rfl⟩

/-- C9 (amended): the position-driven bundler treats empty strings and the
null-tokens "none", "null", "na", "n/a" (case-insensitive, after trimming)
as absent slots; it performs no role validation at all — acceptance and the
resulting slots depend only on positional missing-token normalization — and
it rejects exactly the inputs that are empty, have more than 3 items, or
whose model (3rd) slot is absent. -/
theorem parse_urls_by_position_spec :
    (∀ t, strLower (strTrim t) ∈ MISSING_TOKENS → normalize_missing_token t = none) ∧
    (∀ urls : List String,
      (∃ s, parse_urls_by_position urls = .ok s) ↔
        (urls ≠ [] ∧ urls.length ≤ 3 ∧
          normalize_missing_token (paddedSlot urls 2) ≠ none)) ∧
    (∀ urls s, parse_urls_by_position urls = .ok s →
        some s.model = normalize_missing_token (paddedSlot urls 2) ∧
        s.code = normalize_missing_token (paddedSlot urls 0) ∧
        s.dataset = normalize_missing_token (paddedSlot urls 1)) := by
  refine ⟨?_, ?_, ?_⟩
  · intro t ht
    simp [normalize_missing_token, ht]
  · intro urls
    constructor
    · rintro ⟨s, hs⟩
      by_cases h0 : urls.isEmpty
      · simp [parse_urls_by_position, h0] at hs
      · by_cases h3 : urls.length > 3
        · simp [parse_urls_by_position, h0, h3] at hs
        · refine ⟨by simpa [List.isEmpty_iff] using h0, by omega, ?_⟩
          intro hnone
          simp [parse_urls_by_position, h0, h3, hnone] at hs
    · rintro ⟨h0, h3, hm⟩
      have h0' : urls.isEmpty = false := by
        simpa [List.isEmpty_iff] using h0
      have h3' : ¬ urls.length > 3 := by omega
      cases hmv : normalize_missing_token (paddedSlot urls 2) with
      | none => exact absurd hmv hm
      | some m =>
          refine ⟨⟨m, normalize_missing_token (paddedSlot urls 0),
            normalize_missing_token (paddedSlot urls 1)⟩, ?_⟩
          simp [parse_urls_by_position, h0', h3', hmv]
  · intro urls s hs
    by_cases h0 : urls.isEmpty
    · simp [parse_urls_by_position, h0] at hs
    · by_cases h3 : urls.length > 3
      · simp [parse_urls_by_position, h0, h3] at hs
      · cases hmv : normalize_missing_token (paddedSlot urls 2) with
        | none => simp [parse_urls_by_position, h0, h3, hmv] at hs
        | some m =>
            simp only [parse_urls_by_position, h0, h3, hmv, Bool.false_eq_true,
              if_false, gt_iff_lt, ite_false] at hs
            cases hs
            exact ⟨rfl, rfl, rfl⟩

/-- C9 witness: the amended theorem applied to the concrete input
["https://github.com/o/r", "N/A", "https://huggingface.co/o/m"] — the "N/A"
token is normalized away, the bundle is accepted, and the model slot of the
accepted bundle is the positional normalization of the third item. -/
theorem parse_urls_by_position_spec_witness :
    normalize_missing_token "N/A" = none ∧
    (∃ s, parse_urls_by_position
        ["https://github.com/o/r", "N/A", "https://huggingface.co/o/m"] = .ok s) ∧
    (some (URLSet.mk "https://huggingface.co/o/m" (some "https://github.com/o/r") none).model
      = normalize_missing_token
          (paddedSlot ["https://github.com/o/r", "N/A", "https://huggingface.co/o/m"] 2)) :=
  ⟨parse_urls_by_position_spec.1 "N/A" (by decide),
   (parse_urls_by_position_spec.2.1
      ["https://github.com/o/r", "N/A", "https://huggingface.co/o/m"]).2
      ⟨by decide, by decide, by decide⟩,
   (parse_urls_by_position_spec.2.2
      ["https://github.com/o/r", "N/A", "https://huggingface.co/o/m"]
      ⟨"https://huggingface.co/o/m", some "https://github.com/o/r", none⟩
      rfl).1⟩

/-! ## Model construction (src/Model.py) and the batch driver (src/main.py) -/

/-- The global names in scope in module `src/Model.py`: its imports
(`time`, `os`, typing names, `ModelData`, `Metric`, the three fetchers, and
`URLSet`, `classify_urls` from `url_utils`) plus the class it defines.
`parse_urls_by_position` is not among them. -/
def modelPyGlobals : List String :=
  ["time", "os", "Any", "Dict", "List", "Optional", "Union",
   "ModelData", "Metric", "GitHubFetcher", "HuggingFaceFetcher",
   "DatasetFetcher", "URLSet", "classify_urls", "Model"]

/-- The URL-handling part of `Model.__init__` (Model.py lines 20-30): the
body's first statement is `urlset = parse_urls_by_position(urls)`, which is
a Python global-name lookup; the name is absent from the module's globals,
so the call raises `NameError` before anything else happens. Were the name
in scope, the call itself could still raise `ValueError`. -/
def Model_init (urls : List String) : Except PyError URLSet :=
  if "parse_urls_by_position" ∈ modelPyGlobals then
    match parse_urls_by_position urls with
    | .ok u => .ok u
    | .error _ => .error .valueError
  else .error .nameError

/-- Outcome of `run_catalogue` (main.py lines 108-167): `aborted` embeds the
bare `exit(1)` inside the line loop (main.py line 144), `earlyExit` the
token-validation and file-error returns, `finished` a completed batch with
its catalogue contents and exit code. -/
inductive RunResult where
  | aborted
  | earlyExit (code : ℕ)
  | finished (models : List URLSet) (exitCode : ℕ)
deriving DecidableEq, Repr

/-- `[part.strip() for part in line.strip().split(',')]` (main.py line 137,
with line 132's strip). -/
def lineParts (line : String) : List String :=
  (strSplitOn ',' (strTrim line)).map strTrim

/-- The per-line loop of `run_catalogue` (main.py lines 131-153), threading
the catalogue's model list and the success flag. A blank line is skipped; a
line with a field count other than 3 hits `exit(1)` (embedded as `none`); an
exception from `Model(urls)` is caught, logged, and flips the success flag. -/
def runCatalogueLines : List String → List URLSet → Bool → Option (List URLSet × Bool)
  | [], models, success => some (models, success)
  | line :: rest, models, success =>
      if strTrim line = "" then runCatalogueLines rest models success
      else
        let parts := lineParts line
        if parts.length ≠ 3 then none
        else
          match Model_init (parts.filter (fun u => u ≠ "")) with
          | .ok m => runCatalogueLines rest (models ++ [m]) success
          | .error _ => runCatalogueLines rest models false

/-- `ModelCatalogue.generateReport` (ModelCatalogue.py lines 122-128):
newline-join of one serialized record per model, parametrized by the
per-model serialization `getModelNDJSON`. -/
def generateReport (serialize : URLSet → String) (models : List URLSet) : String :=
  match models.map serialize with
  | [] => ""
  | r :: rs => rs.foldl (fun acc line => acc ++ "\n" ++ line) r

/-- `run_catalogue(file_path)` (main.py lines 108-167) over the file's
lines, with the GitHub-token validation outcome as a parameter (it is a
network call). An invalid token returns 1 before any line is read. -/
def run_catalogue (tokenValid : Bool) (lines : List String) : RunResult :=
  if !tokenValid then .earlyExit 1
  else
    match runCatalogueLines lines [] true with
    | none => .aborted
    | some (models, success) => .finished models (if success then 0 else 1)

theorem Model_init_eq_nameError (urls : List String) :
    Model_init urls = .error .nameError := rfl

theorem runCatalogueLines_models_eq :
    ∀ (lines : List String) (ms : List URLSet) (b : Bool) (ms' : List URLSet) (b' : Bool),
      runCatalogueLines lines ms b = some (ms', b') → ms' = ms := by
  intro lines
  induction lines with
  | nil =>
      intro ms b ms' b' h
      simp only [runCatalogueLines, Option.some_inj, Prod.mk.injEq] at h
      exact h.1.symm
  | cons line rest ih =>
      intro ms b ms' b' h
      simp only [runCatalogueLines] at h
      by_cases hb : strTrim line = ""
      · rw [if_pos hb] at h
        exact ih _ _ _ _ h
      · rw [if_neg hb] at h
        by_cases hp : (lineParts line).length ≠ 3
        · rw [if_pos hp] at h
          exact absurd h (by simp)
        · rw [if_neg hp, Model_init_eq_nameError] at h
          exact ih _ _ _ _ h

/-- C1: constructing a `Model` raises `NameError` for every input URL list,
because `Model.__init__` calls `parse_urls_by_position` while `Model.py`
imports only `URLSet` and `classify_urls` from `url_utils`; consequently the
per-line handler of `run_catalogue` absorbs the error for every line, no
model is ever added to the catalogue, and any completed batch produces an
empty report. -/
theorem Model_init_NameError_empty_report :
    (∀ urls, Model_init urls = .error .nameError) ∧
    (∀ lines models exitCode,
        run_catalogue true lines = .finished models exitCode →
          models = [] ∧ ∀ serialize, generateReport serialize models = "") := by
  refine ⟨fun urls => rfl, ?_⟩
  intro lines models exitCode h
  simp only [run_catalogue, Bool.not_true, Bool.false_eq_true, if_false, ite_false] at h
  cases hr : runCatalogueLines lines [] true with
  | none => rw [hr] at h; exact absurd h (by simp)
  | some p =>
      rw [hr] at h
      have hm : models = p.1 := by
        cases h
        rfl
      have : p.1 = [] := runCatalogueLines_models_eq lines [] true p.1 p.2 (by rw [hr])
      subst hm
      rw [this]
      exact ⟨rfl, fun serialize => rfl⟩

/-- C1 witness: the theorem applied to a concrete URL list and a concrete
one-line batch that completes with exit code 1, an empty catalogue and an
empty report. -/
theorem Model_init_NameError_empty_report_witness :
    Model_init ["https://huggingface.co/org/model"] = .error .nameError ∧
    (([] : List URLSet) = [] ∧ ∀ serialize, generateReport serialize [] = "") :=
  ⟨Model_init_NameError_empty_report.1 ["https://huggingface.co/org/model"],
   Model_init_NameError_empty_report.2 ["a,b,c"] [] 1 rfl⟩

/-- C5 counterexample: the first record has 2 comma-separated fields — an
allowed count per the claim — yet `run_catalogue` hits `exit(1)` and aborts
the whole batch; the well-formed second line is never processed and no
report is produced, contradicting skip-and-continue line-level handling. -/
theorem run_catalogue_aborts_on_field_count :
    run_catalogue true ["https://a.example,https://b.example", "c,d,e"]
      = RunResult.aborted := rfl

theorem runCatalogueLines_threeField :
    ∀ (lines : List String),
      (∀ l ∈ lines, strTrim l = "" ∨ (lineParts l).length = 3) →
      ∀ ms b, runCatalogueLines lines ms b =
        some (ms, b && lines.all (fun l => strTrim l == "")) := by
  intro lines
  induction lines with
  | nil => intro _ ms b; simp [runCatalogueLines]
  | cons line rest ih =>
      intro hg ms b
      have hrest : ∀ l ∈ rest, strTrim l = "" ∨ (lineParts l).length = 3 :=
        fun l hl => hg l (List.mem_cons_of_mem _ hl)
      simp only [runCatalogueLines]
      by_cases hb : strTrim line = ""
      · rw [if_pos hb, ih hrest]
        simp [hb]
      · rw [if_neg hb]
        have h3 : (lineParts line).length = 3 := by
          rcases hg line (List.mem_cons_self line rest) with h | h
          · exact absurd h hb
          · exact h
        rw [if_neg (by omega), Model_init_eq_nameError, ih hrest]
        simp [hb]

/-- C5 (amended): `run_catalogue` demands exactly 3 comma-separated fields
per record; a record with any other field count makes the whole batch abort
immediately via `exit(1)` — it is not skipped and no later line is processed
— while an error thrown during `Model` construction for a 3-field record is
the line-level case: that line is skipped, the remaining lines continue, and
a batch containing any non-blank record finishes with exit status 1. -/
theorem run_catalogue_field_count_policy :
    (∀ pre bad rest,
      (∀ l ∈ pre, strTrim l = "" ∨ (lineParts l).length = 3) →
      strTrim bad ≠ "" → (lineParts bad).length ≠ 3 →
      run_catalogue true (pre ++ bad :: rest) = .aborted) ∧
    (∀ lines : List String,
      (∀ l ∈ lines, strTrim l = "" ∨ (lineParts l).length = 3) →
      (∃ l ∈ lines, strTrim l ≠ "") →
      run_catalogue true lines = .finished [] 1) := by
  constructor
  · intro pre bad rest hg hb h3
    have habort : ∀ ms b, runCatalogueLines (pre ++ bad :: rest) ms b = none := by
      induction pre with
      | nil =>
          intro ms b
          simp only [List.nil_append, runCatalogueLines]
          rw [if_neg hb, if_pos h3]
      | cons l pre ih =>
          intro ms b
          have hgrest : ∀ x ∈ pre, strTrim x = "" ∨ (lineParts x).length = 3 :=
            fun x hx => hg x (List.mem_cons_of_mem _ hx)
          simp only [List.cons_append, runCatalogueLines]
          by_cases hbl : strTrim l = ""
          · rw [if_pos hbl]
            exact ih hgrest ms b
          · have h3l : (lineParts l).length = 3 := by
              rcases hg l (List.mem_cons_self l pre) with h | h
              · exact absurd h hbl
              · exact h
            rw [if_neg hbl, if_neg (by omega), Model_init_eq_nameError]
            exact ih hgrest ms false
    simp [run_catalogue, habort]
  · intro lines hg hnb
    have hall : lines.all (fun l => strTrim l == "") = false := by
      obtain ⟨l, hl, hne⟩ := hnb
      rw [List.all_eq_false]
      exact ⟨l, hl, by simpa using hne⟩
    rw [run_catalogue]
    simp only [Bool.not_true, Bool.false_eq_true, if_false, ite_false]
    rw [runCatalogueLines_threeField lines hg [] true]
    simp [hall]

/-- C5 witness: the amended theorem applied to concrete batches — a 2-field
record aborts the whole run, and a batch of one non-blank 3-field record
(whose Model construction fails) finishes with an empty catalogue and exit
status 1. -/
theorem run_catalogue_field_count_policy_witness :
    run_catalogue true ["https://a.example,https://b.example"] = .aborted ∧
    run_catalogue true ["a,b,c"] = .finished [] 1 :=
  ⟨run_catalogue_field_count_policy.1 [] "https://a.example,https://b.example" []
      (by intro l hl; cases hl) (by decide) (by decide),
   run_catalogue_field_count_policy.2 ["a,b,c"]
      (by intro l hl; simp at hl; subst hl; right; decide)
      ⟨"a,b,c", by simp, by decide⟩⟩

/-! ## NetScore aggregation (src/Model.py, computeNetScore) -/

/-- A stored metric result: `Model.evaluations` maps metric names to either
a float or a dict of floats (Model.py line 45). -/
inductive ScoreVal where
  | scalar (v : ℚ)
  | mapping (entries : List (String × ℚ))
deriving DecidableEq, Repr

/-- True exactly on dict-valued entries (`isinstance(val, dict)`). -/
def ScoreVal.isMapping : ScoreVal → Bool
  | .scalar _ => false
  | .mapping _ => true

/-- The score/latency state of one `Model`: `evaluations` and
`evaluationsLatency` (Model.py lines 45-46). -/
structure EvalState where
  evaluations : List (String × ScoreVal)
  evaluationsLatency : List (String × ℚ)
deriving DecidableEq, Repr

/-- The inner helper `safe_score` of `computeNetScore` (Model.py lines
209-220): for the `"SizeMetric"` key only a non-empty dict counts (its mean),
anything else is 0.0; for the other keys a dict reduces to its mean (empty
dict to 0.0), a float passes through, an absent entry is 0.0. -/
def safe_score (evals : List (String × ScoreVal)) (key : String) : ℚ :=
  match dictLookup evals key with
  | none => 0
  | some (.scalar v) => if key = "SizeMetric" then 0 else v
  | some (.mapping m) =>
      if m.isEmpty then 0 else (m.map Prod.snd).sum / m.length

/-- The weighted sum of `computeNetScore` (Model.py lines 224-232). -/
def weightedSum (evals : List (String × ScoreVal)) : ℚ :=
  (0.2 : ℚ) * safe_score evals "SizeMetric" +
  (0.3 : ℚ) * safe_score evals "RampUpMetric" +
  (0.1 : ℚ) * safe_score evals "BusFactorMetric" +
  (0.1 : ℚ) * safe_score evals "AvailabilityMetric" +
  (0.1 : ℚ) * safe_score evals "DatasetQualityMetric" +
  (0.1 : ℚ) * safe_score evals "CodeQualityMetric" +
  (0.1 : ℚ) * safe_score evals "PerformanceClaimsMetric"

/-- `net_score = license_score * weighted_sum` (Model.py line 234). -/
def netScoreValue (evals : List (String × ScoreVal)) : ℚ :=
  safe_score evals "LicenseMetric" * weightedSum evals

/-- `Model.computeNetScore` (Model.py lines 208-243): store the net score
under `"NetScore"`, set the `"NetScore"` latency to 0.0 and then overwrite
it with the sum of every other recorded latency, and return the net score. -/
def computeNetScore (s : EvalState) : EvalState × ℚ :=
  let net := netScoreValue s.evaluations
  let evals := dictSet s.evaluations "NetScore" (.scalar net)
  let lat1 := dictSet s.evaluationsLatency "NetScore" 0
  let latSum := ((lat1.filter (fun p => p.1 ≠ "NetScore")).map Prod.snd).sum
  let lat2 := dictSet lat1 "NetScore" latSum
  (⟨evals, lat2⟩, net)

/-- The scalar-resolution rule exactly as the specification words it: a
mapping-valued score is replaced by the mean of its entries, an empty
mapping or an entirely absent entry by 0.0 (a stored scalar is the scalar).
Declared for the refinement comparison with `safe_score`. -/
def specResolveScalar (evals : List (String × ScoreVal)) (key : String) : ℚ :=
  match dictLookup evals key with
  | none => 0
  | some (.scalar v) => v
  | some (.mapping m) =>
      if m.isEmpty then 0 else (m.map Prod.snd).sum / m.length

theorem safe_score_eq_specResolve_of_ne (evals : List (String × ScoreVal))
    (key : String) (h : key ≠ "SizeMetric") :
    safe_score evals key = specResolveScalar evals key := by
  unfold safe_score specResolveScalar
  cases dictLookup evals key with
  | none => rfl
  | some v => cases v with
    | scalar q => simp [h]
    | mapping m => rfl

theorem safe_score_eq_specResolve_size (evals : List (String × ScoreVal))
    (h : (dictLookup evals "SizeMetric").all (fun v => !v.isMapping) = false) :
    safe_score evals "SizeMetric" = specResolveScalar evals "SizeMetric" := by
  unfold safe_score specResolveScalar
  cases hv : dictLookup evals "SizeMetric" with
  | none => rfl
  | some v => cases v with
    | scalar q => rw [hv] at h; simp [ScoreVal.isMapping] at h
    | mapping m => rfl

/-- Sum of the latencies recorded for keys other than `"NetScore"`. -/
def otherLatencySum (latencies : List (String × ℚ)) : ℚ :=
  ((latencies.filter (fun p => p.1 ≠ "NetScore")).map Prod.snd).sum

/-- C2: `computeNetScore` resolves a safe scalar per contributing metric
exactly as the spec words it (mapping to mean, empty or absent to 0.0),
multiplies the license score by the weighted sum with weights 0.2 size, 0.3
ramp-up and 0.1 for the five others, stores the product under `"NetScore"`,
and gives that key a latency equal to the sum of all other recorded
latencies. Stated for states whose `"SizeMetric"` entry, when present, is
dict-valued — the shape `SizeMetric.evaluate` always produces. -/
theorem computeNetScore_spec (s : EvalState)
    (hsize : (dictLookup s.evaluations "SizeMetric").all (fun v => !v.isMapping) = false) :
    (computeNetScore s).2 =
      specResolveScalar s.evaluations "LicenseMetric" *
        ((0.2 : ℚ) * specResolveScalar s.evaluations "SizeMetric" +
         (0.3 : ℚ) * specResolveScalar s.evaluations "RampUpMetric" +
         (0.1 : ℚ) * specResolveScalar s.evaluations "BusFactorMetric" +
         (0.1 : ℚ) * specResolveScalar s.evaluations "AvailabilityMetric" +
         (0.1 : ℚ) * specResolveScalar s.evaluations "DatasetQualityMetric" +
         (0.1 : ℚ) * specResolveScalar s.evaluations "CodeQualityMetric" +
         (0.1 : ℚ) * specResolveScalar s.evaluations "PerformanceClaimsMetric") ∧
    dictLookup (computeNetScore s).1.evaluations "NetScore"
      = some (.scalar (computeNetScore s).2) ∧
    dictLookup (computeNetScore s).1.evaluationsLatency "NetScore"
      = some (otherLatencySum s.evaluationsLatency) := by
  refine ⟨?_, ?_, ?_⟩
  · show netScoreValue s.evaluations = _
    unfold netScoreValue weightedSum
    rw [safe_score_eq_specResolve_of_ne _ "LicenseMetric" (by decide),
        safe_score_eq_specResolve_size _ hsize,
        safe_score_eq_specResolve_of_ne _ "RampUpMetric" (by decide),
        safe_score_eq_specResolve_of_ne _ "BusFactorMetric" (by decide),
        safe_score_eq_specResolve_of_ne _ "AvailabilityMetric" (by decide),
        safe_score_eq_specResolve_of_ne _ "DatasetQualityMetric" (by decide),
        safe_score_eq_specResolve_of_ne _ "CodeQualityMetric" (by decide),
        safe_score_eq_specResolve_of_ne _ "PerformanceClaimsMetric" (by decide)]
  · exact dictLookup_dictSet_self _ _ _
  · show dictLookup (dictSet (dictSet s.evaluationsLatency "NetScore" 0) "NetScore" _) _ = _
    rw [dictLookup_dictSet_self]
    unfold otherLatencySum
    rw [dictSet_filter_ne]

/-- C2 witness: the theorem applied to a concrete state holding a license
score of 1.0, a device mapping averaging 0.75, a ramp-up score of 0.5, and
two latencies summing to 5. -/
theorem computeNetScore_spec_witness :
    (computeNetScore
        ⟨[("LicenseMetric", .scalar 1),
          ("SizeMetric", .mapping [("raspberry_pi", 1/2), ("aws_server", 1)]),
          ("RampUpMetric", .scalar (1/2))],
         [("LicenseMetric", 2), ("RampUpMetric", 3)]⟩).2 =
      specResolveScalar
        [("LicenseMetric", .scalar 1),
         ("SizeMetric", .mapping [("raspberry_pi", 1/2), ("aws_server", 1)]),
         ("RampUpMetric", .scalar (1/2))] "LicenseMetric" *
        ((0.2 : ℚ) * specResolveScalar
            [("LicenseMetric", .scalar 1),
             ("SizeMetric", .mapping [("raspberry_pi", 1/2), ("aws_server", 1)]),
             ("RampUpMetric", .scalar (1/2))] "SizeMetric" +
         (0.3 : ℚ) * specResolveScalar
            [("LicenseMetric", .scalar 1),
             ("SizeMetric", .mapping [("raspberry_pi", 1/2), ("aws_server", 1)]),
             ("RampUpMetric", .scalar (1/2))] "RampUpMetric" +
         (0.1 : ℚ) * specResolveScalar
            [("LicenseMetric", .scalar 1),
             ("SizeMetric", .mapping [("raspberry_pi", 1/2), ("aws_server", 1)]),
             ("RampUpMetric", .scalar (1/2))] "BusFactorMetric" +
         (0.1 : ℚ) * specResolveScalar
            [("LicenseMetric", .scalar 1),
             ("SizeMetric", .mapping [("raspberry_pi", 1/2), ("aws_server", 1)]),
             ("RampUpMetric", .scalar (1/2))] "AvailabilityMetric" +
         (0.1 : ℚ) * specResolveScalar
            [("LicenseMetric", .scalar 1),
             ("SizeMetric", .mapping [("raspberry_pi", 1/2), ("aws_server", 1)]),
             ("RampUpMetric", .scalar (1/2))] "DatasetQualityMetric" +
         (0.1 : ℚ) * specResolveScalar
            [("LicenseMetric", .scalar 1),
             ("SizeMetric", .mapping [("raspberry_pi", 1/2), ("aws_server", 1)]),
             ("RampUpMetric", .scalar (1/2))] "CodeQualityMetric" +
         (0.1 : ℚ) * specResolveScalar
            [("LicenseMetric", .scalar 1),
             ("SizeMetric", .mapping [("raspberry_pi", 1/2), ("aws_server", 1)]),
             ("RampUpMetric", .scalar (1/2))] "PerformanceClaimsMetric") ∧
    dictLookup (computeNetScore
        ⟨[("LicenseMetric", .scalar 1),
          ("SizeMetric", .mapping [("raspberry_pi", 1/2), ("aws_server", 1)]),
          ("RampUpMetric", .scalar (1/2))],
         [("LicenseMetric", 2), ("RampUpMetric", 3)]⟩).1.evaluations "NetScore"
      = some (.scalar (computeNetScore
        ⟨[("LicenseMetric", .scalar 1),
          ("SizeMetric", .mapping [("raspberry_pi", 1/2), ("aws_server", 1)]),
          ("RampUpMetric", .scalar (1/2))],
         [("LicenseMetric", 2), ("RampUpMetric", 3)]⟩).2) ∧
    dictLookup (computeNetScore
        ⟨[("LicenseMetric", .scalar 1),
          ("SizeMetric", .mapping [("raspberry_pi", 1/2), ("aws_server", 1)]),
          ("RampUpMetric", .scalar (1/2))],
         [("LicenseMetric", 2), ("RampUpMetric", 3)]⟩).1.evaluationsLatency "NetScore"
      = some (otherLatencySum [("LicenseMetric", 2), ("RampUpMetric", 3)]) :=
  computeNetScore_spec
    ⟨[("LicenseMetric", .scalar 1),
      ("SizeMetric", .mapping [("raspberry_pi", 1/2), ("aws_server", 1)]),
      ("RampUpMetric", .scalar (1/2))],
     [("LicenseMetric", 2), ("RampUpMetric", 3)]⟩ rfl

/-- A stored metric result lying in [0,1]: a scalar in [0,1], or a mapping
with every entry in [0,1]. -/
def ScoreValInUnit : ScoreVal → Prop
  | .scalar v => 0 ≤ v ∧ v ≤ 1
  | .mapping m => ∀ p ∈ m, 0 ≤ p.2 ∧ p.2 ≤ 1

theorem mean_unit_interval (m : List (String × ℚ)) (hne : m.isEmpty = false)
    (h : ∀ p ∈ m, 0 ≤ p.2 ∧ p.2 ≤ 1) :
    0 ≤ (m.map Prod.snd).sum / m.length ∧ (m.map Prod.snd).sum / m.length ≤ 1 := by
  have hlen : 0 < (m.length : ℚ) := by
    have : m ≠ [] := by simpa [List.isEmpty_iff] using hne
    have : 0 < m.length := List.length_pos.mpr this
    exact_mod_cast this
  have hsum0 : 0 ≤ (m.map Prod.snd).sum := by
    apply List.sum_nonneg
    intro x hx
    obtain ⟨p, hp, rfl⟩ := List.mem_map.mp hx
    exact (h p hp).1
  have hsum1 : (m.map Prod.snd).sum ≤ (m.length : ℚ) := by
    have := List.sum_le_card_nsmul (m.map Prod.snd) 1 ?_
    · simpa using this
    · intro x hx
      obtain ⟨p, hp, rfl⟩ := List.mem_map.mp hx
      exact (h p hp).2
  exact ⟨div_nonneg hsum0 (le_of_lt hlen), (div_le_one hlen).mpr hsum1⟩

theorem safe_score_unit_interval (evals : List (String × ScoreVal)) (key : String)
    (h : ∀ p ∈ evals, ScoreValInUnit p.2) :
    0 ≤ safe_score evals key ∧ safe_score evals key ≤ 1 := by
  unfold safe_score
  cases hv : dictLookup evals key with
  | none => norm_num
  | some v =>
      obtain ⟨k, hm⟩ := dictLookup_mem hv
      have hu : ScoreValInUnit v := h (k, v) hm
      cases v with
      | scalar q =>
          by_cases hk : key = "SizeMetric" <;> simp [hk] <;> exact hu
      | mapping m =>
          by_cases he : m.isEmpty
          · simp [he]
          · have := mean_unit_interval m (by simpa using he) hu
            simpa [he] using this

/-- C3: for every evaluation state whose stored metric scores all lie in
[0,1] (mapping-valued scores entrywise), the computed NetScore lies in
[0,1], and it is exactly 0 whenever the resolved license score is 0,
regardless of the other metrics. -/
theorem netScore_bounds (s : EvalState)
    (h : ∀ p ∈ s.evaluations, ScoreValInUnit p.2) :
    (0 ≤ (computeNetScore s).2 ∧ (computeNetScore s).2 ≤ 1) ∧
    (safe_score s.evaluations "LicenseMetric" = 0 → (computeNetScore s).2 = 0) := by
  have hL := safe_score_unit_interval s.evaluations "LicenseMetric" h
  have hSz := safe_score_unit_interval s.evaluations "SizeMetric" h
  have hR := safe_score_unit_interval s.evaluations "RampUpMetric" h
  have hB := safe_score_unit_interval s.evaluations "BusFactorMetric" h
  have hA := safe_score_unit_interval s.evaluations "AvailabilityMetric" h
  have hD := safe_score_unit_interval s.evaluations "DatasetQualityMetric" h
  have hC := safe_score_unit_interval s.evaluations "CodeQualityMetric" h
  have hP := safe_score_unit_interval s.evaluations "PerformanceClaimsMetric" h
  have hW0 : 0 ≤ weightedSum s.evaluations := by
    unfold weightedSum
    have := hSz.1; have := hR.1; have := hB.1; have := hA.1
    have := hD.1; have := hC.1; have := hP.1
    norm_num
    linarith
  have hW1 : weightedSum s.evaluations ≤ 1 := by
    unfold weightedSum
    have := hSz.2; have := hR.2; have := hB.2; have := hA.2
    have := hD.2; have := hC.2; have := hP.2
    norm_num
    linarith
  refine ⟨⟨?_, ?_⟩, ?_⟩
  · show 0 ≤ netScoreValue s.evaluations
    exact mul_nonneg hL.1 hW0
  · show netScoreValue s.evaluations ≤ 1
    calc netScoreValue s.evaluations
        ≤ 1 * 1 := mul_le_mul hL.2 hW1 hW0 zero_le_one
      _ = 1 := one_mul 1
  · intro h0
    show netScoreValue s.evaluations = 0
    unfold netScoreValue
    rw [h0, zero_mul]

/-- C3 witness: the theorem applied to a concrete state with a 0.0 license
score and other metrics at their maximum — the NetScore is in [0,1] and is
exactly 0. -/
theorem netScore_bounds_witness :
    (0 ≤ (computeNetScore
        ⟨[("LicenseMetric", .scalar 0),
          ("SizeMetric", .mapping [("raspberry_pi", 1)]),
          ("RampUpMetric", .scalar 1)], []⟩).2 ∧
     (computeNetScore
        ⟨[("LicenseMetric", .scalar 0),
          ("SizeMetric", .mapping [("raspberry_pi", 1)]),
          ("RampUpMetric", .scalar 1)], []⟩).2 ≤ 1) ∧
    (computeNetScore
        ⟨[("LicenseMetric", .scalar 0),
          ("SizeMetric", .mapping [("raspberry_pi", 1)]),
          ("RampUpMetric", .scalar 1)], []⟩).2 = 0 :=
  have hS : ∀ p ∈ [(("LicenseMetric" : String), ScoreVal.scalar 0),
      ("SizeMetric", ScoreVal.mapping [("raspberry_pi", 1)]),
      ("RampUpMetric", ScoreVal.scalar 1)], ScoreValInUnit p.2 := by
    intro p hp
    fin_cases hp <;> simp [ScoreValInUnit] <;> norm_num
  ⟨(netScore_bounds ⟨_, []⟩ hS).1,
   (netScore_bounds ⟨_, []⟩ hS).2 rfl⟩

/-! ## Resource-footprint metric (src/metrics/SizeMetric.py) -/

/-- `SizeMetric.DEVICE_SPECS` (SizeMetric.py lines 71-76): the four device
classes with their usable-memory budgets in GB. -/
def DEVICE_SPECS : List (String × ℚ) :=
  [("raspberry_pi", 2), ("jetson_nano", 3), ("desktop_pc", 20), ("aws_server", 60)]

/-- The per-device score of `SizeMetric.evaluate` (SizeMetric.py lines
95-96): `(usable_memory - model_size_gb) / usable_memory` clamped to
[0,1]. -/
def deviceScore (usableMemory modelSizeGB : ℚ) : ℚ :=
  max 0 (min 1 ((usableMemory - modelSizeGB) / usableMemory))

/-- The size computation of `SizeMetric._get_model_size` (SizeMetric.py
lines 127-128): `param_count * bytes_per_param / 1024 ** 3` GB. -/
def modelSizeGB (paramCount : ℕ) (bytesPerParam : ℚ) : ℚ :=
  ((paramCount : ℚ) * bytesPerParam) / 1024 ^ 3

/-- `SizeMetric.evaluate` (SizeMetric.py lines 80-103) as a function of the
resolved model size: an undetermined size yields 0.0 for every device,
otherwise each device gets its clamped score. -/
def sizeMetricEvaluate (sizeGB : Option ℚ) : List (String × ℚ) :=
  match sizeGB with
  | none => DEVICE_SPECS.map (fun d => (d.1, 0))
  | some s => DEVICE_SPECS.map (fun d => (d.1, deviceScore d.2 s))

/-- C7: the resource-footprint metric computes
`size_GB = params * bytesPerParam / 2^30`, scores each of the four fixed
budgets 2.0, 3.0, 20.0, 60.0 GB as `clamp((budget - size)/budget, 0, 1)`,
is monotonically non-increasing in model size for a fixed positive budget,
is exactly 0.0 once the size reaches the budget, and scores every device
0.0 when the size cannot be determined. -/
theorem sizeMetric_spec :
    (∀ p b, modelSizeGB p b = (p : ℚ) * b / 2 ^ 30) ∧
    (DEVICE_SPECS.map Prod.snd = [2, 3, 20, 60]) ∧
    (∀ s, sizeMetricEvaluate (some s)
        = DEVICE_SPECS.map (fun d => (d.1, deviceScore d.2 s))) ∧
    (∀ budget s1 s2, 0 < budget → s1 ≤ s2 →
        deviceScore budget s2 ≤ deviceScore budget s1) ∧
    (∀ budget s, 0 < budget → budget ≤ s → deviceScore budget s = 0) ∧
    (∀ entry ∈ sizeMetricEvaluate none, entry.2 = 0) := by
  refine ⟨?_, rfl, fun s => rfl, ?_, ?_, ?_⟩
  · intro p b
    unfold modelSizeGB
    norm_num
  · intro budget s1 s2 hb h12
    unfold deviceScore
    have hdiv : (budget - s2) / budget ≤ (budget - s1) / budget :=
      (div_le_div_right hb).mpr (by linarith)
    exact max_le_max (le_refl 0) (min_le_min (le_refl 1) hdiv)
  · intro budget s hb hbs
    unfold deviceScore
    have h1 : (budget - s) / budget ≤ 0 :=
      div_nonpos_of_nonpos_of_nonneg (by linarith) (le_of_lt hb)
    have h2 : min 1 ((budget - s) / budget) ≤ 0 :=
      le_trans (min_le_right _ _) h1
    exact max_eq_left h2
  · intro entry he
    simp only [sizeMetricEvaluate, DEVICE_SPECS, List.map, List.mem_cons,
      List.not_mem_nil, or_false] at he
    rcases he with h | h | h | h <;> rw [h]

/-- C7 witness: the theorem applied to the spec scenario — a 7B-parameter
model at 2 bytes per parameter is about 13.04 GB, which zeroes the 2 GB
raspberry-pi budget, and a larger model never scores higher on the same
budget. -/
theorem sizeMetric_spec_witness :
    modelSizeGB 7000000000 2 = (7000000000 : ℚ) * 2 / 2 ^ 30 ∧
    deviceScore 2 (modelSizeGB 7000000000 2) = 0 ∧
    deviceScore 60 14 ≤ deviceScore 60 13 :=
  ⟨sizeMetric_spec.1 7000000000 2,
   sizeMetric_spec.2.2.2.2.1 2 (modelSizeGB 7000000000 2) (by norm_num)
     (by unfold modelSizeGB; norm_num),
   sizeMetric_spec.2.2.2.1 60 13 14 (by norm_num) (by norm_num)⟩

/-! ## Maintainer-concentration metric (src/metrics/BusFactorMetric.py) -/

/-- One element of the GitHub metadata `contributors` list: a dict carrying
a `contributions` count (an absent count reads as 0 via `c.get`, folded into
the carried number), or any non-dict value, on which Python's attribute
lookup `c.get` raises `AttributeError`. -/
inductive ContribEntry where
  | dict (contributions : ℕ)
  | nonDict
deriving DecidableEq, Repr

/-- True on the entries whose `c.get("contributions", 0)` raises. -/
def isNonDictEntry : ContribEntry → Bool
  | .dict _ => false
  | .nonDict => true

/-- `c.get("contributions", 0)` for a well-formed entry. -/
def entryContributions : ContribEntry → Option ℕ
  | .dict n => some n
  | .nonDict => none

/-- `BusFactorMetric.LARGE_COMPANIES` (BusFactorMetric.py lines 56-59). -/
def LARGE_COMPANIES : List String :=
  ["google", "facebook", "microsoft", "openai", "huggingface",
   "amazon", "ibm", "apple", "tencent", "baidu"]

/-- Insert into a descending-sorted list, keeping it descending. -/
def insertDesc (n : ℕ) : List ℕ → List ℕ
  | [] => [n]
  | m :: ms => if m ≤ n then n :: m :: ms else m :: insertDesc n ms

/-- Sort commit counts in descending order, modelling
`sorted(..., key=contributions, reverse=True)`; only the multiset of the
ten largest counts feeds the score, which insertion sort preserves. -/
def sortDesc : List ℕ → List ℕ
  | [] => []
  | n :: ns => insertDesc n (sortDesc ns)

/-- Python `max` over a list of naturals (callers guarantee non-empty). -/
def listMax (l : List ℕ) : ℕ := l.foldr max 0

/-- Python `min` over a non-empty list of naturals. -/
def listMin : List ℕ → ℕ
  | [] => 0
  | n :: ns => ns.foldr min n

/-- The contributor part of `BusFactorMetric.evaluate` (BusFactorMetric.py
lines 86-129): empty contributor data scores 0.0; a non-dict entry makes the
sort key raise `AttributeError`; otherwise the top 10 contributors by commit
count give `distribution_score = min/max` (0.0 when the max is 0) scaled by
`min(num_contribs, 10) * 0.1`. -/
def busFactorFromContributors (contributors : List ContribEntry) : Except PyError ℚ :=
  if contributors.isEmpty then .ok 0
  else if contributors.any isNonDictEntry then .error .attributeError
  else
    let contribCounts := contributors.filterMap entryContributions
    let topContribs := (sortDesc contribCounts).take 10
    let maxContrib := listMax topContribs
    let minContrib := listMin topContribs
    let distributionScore : ℚ :=
      if maxContrib = 0 then 0 else (minContrib : ℚ) / (maxContrib : ℚ)
    let maxScore : ℚ := (min topContribs.length 10 : ℕ) * (0.1 : ℚ)
    .ok (distributionScore * maxScore)

/-- `BusFactorMetric.evaluate` (BusFactorMetric.py lines 64-129) as a
function of the resolved author string and the GitHub contributor list
(`None` when the GitHub metadata is absent): a large-company author short-
circuits to 1.0 before any contributor data is read. -/
def busFactorEvaluate (author : String)
    (contributors : Option (List ContribEntry)) : Except PyError ℚ :=
  if author ∈ LARGE_COMPANIES then .ok 1
  else busFactorFromContributors (contributors.getD [])

/-- `Model.evaluate` (Model.py lines 196-203) for one metric, parametrized
by the metric call's outcome: an exception from `metric.evaluate` propagates
before either the score or the latency entry is written. -/
def Model_evaluate (metricName : String) (result : Except PyError ScoreVal)
    (latency : ℚ) (s : EvalState) : Except PyError EvalState :=
  match result with
  | .error e => .error e
  | .ok score =>
      .ok ⟨dictSet s.evaluations metricName score,
           dictSet s.evaluationsLatency metricName latency⟩

theorem filterMap_entryContributions (counts : List ℕ) :
    (counts.map ContribEntry.dict).filterMap entryContributions = counts := by
  induction counts with
  | nil => rfl
  | cons n ns ih => simp [entryContributions, ih]

theorem any_isNonDictEntry_map (counts : List ℕ) :
    (counts.map ContribEntry.dict).any isNonDictEntry = false := by
  induction counts with
  | nil => rfl
  | cons n ns ih => simp [isNonDictEntry, ih]

theorem length_insertDesc (n : ℕ) (l : List ℕ) :
    (insertDesc n l).length = l.length + 1 := by
  induction l with
  | nil => rfl
  | cons m ms ih =>
      unfold insertDesc
      by_cases h : m ≤ n
      · simp [h]
      · simp [h, ih]

theorem length_sortDesc (l : List ℕ) : (sortDesc l).length = l.length := by
  induction l with
  | nil => rfl
  | cons n ns ih => simp [sortDesc, length_insertDesc, ih]

theorem busFactorFromContributors_counts (counts : List ℕ) (h : counts ≠ []) :
    busFactorFromContributors (counts.map ContribEntry.dict) =
      .ok ((if listMax ((sortDesc counts).take 10) = 0 then 0
            else (listMin ((sortDesc counts).take 10) : ℚ)
                  / (listMax ((sortDesc counts).take 10) : ℚ)) *
           ((min counts.length 10 : ℕ) * (0.1 : ℚ))) := by
  have hne : (counts.map ContribEntry.dict).isEmpty = false := by
    simp [List.isEmpty_iff, h]
  unfold busFactorFromContributors
  rw [hne, any_isNonDictEntry_map, filterMap_entryContributions]
  simp only [Bool.false_eq_true, if_false, ite_false]
  have hlen : ((sortDesc counts).take 10).length = min counts.length 10 := by
    rw [List.length_take, length_sortDesc, Nat.min_comm]
  rw [hlen, min_assoc, min_self]

/-- C6 failing input, proved on the embedding: a single non-dict contributor
entry (with a non-large-company author) makes `BusFactorMetric.evaluate`
raise `AttributeError` instead of absorbing the failure, and the exception
propagates through `Model.evaluate` before any latency entry is written. -/
theorem busFactor_raises_on_nondict :
    busFactorEvaluate "independent-dev" (some [ContribEntry.nonDict])
      = .error .attributeError ∧
    (∀ (latency : ℚ) (s : EvalState),
        Model_evaluate "BusFactorMetric" (.error .attributeError) latency s
          = .error .attributeError) :=
  ⟨rfl, fun _ _ => rfl⟩

/-- C8: the maintainer-concentration metric scores 1.0 for any author in the
fixed large-organization list independent of contributor data, 0.0 when
there is no contributor data, and otherwise the min/max ratio of the top 10
commit counts scaled by `min(contributorCount, 10) * 0.1`; in particular
commit counts [10, 10, 10] score exactly 0.3. -/
theorem busFactor_spec :
    (∀ author contribs, author ∈ LARGE_COMPANIES →
        busFactorEvaluate author contribs = .ok 1) ∧
    (∀ author, author ∉ LARGE_COMPANIES →
        busFactorEvaluate author none = .ok 0 ∧
        busFactorEvaluate author (some []) = .ok 0) ∧
    (∀ author counts, author ∉ LARGE_COMPANIES → counts ≠ [] →
        busFactorEvaluate author (some (counts.map ContribEntry.dict)) =
          .ok ((if listMax ((sortDesc counts).take 10) = 0 then 0
                else (listMin ((sortDesc counts).take 10) : ℚ)
                      / (listMax ((sortDesc counts).take 10) : ℚ)) *
               ((min counts.length 10 : ℕ) * (0.1 : ℚ)))) ∧
    (∀ author, author ∉ LARGE_COMPANIES →
        busFactorEvaluate author
            (some [ContribEntry.dict 10, ContribEntry.dict 10, ContribEntry.dict 10])
          = .ok (3/10)) := by
  refine ⟨?_, ?_, ?_, ?_⟩
  · intro author contribs h
    simp [busFactorEvaluate, h]
  · intro author h
    constructor <;> simp [busFactorEvaluate, h, busFactorFromContributors]
  · intro author counts h hc
    rw [busFactorEvaluate, if_neg h, Option.getD_some,
      busFactorFromContributors_counts counts hc]
  · intro author h
    have h10 : [ContribEntry.dict 10, ContribEntry.dict 10, ContribEntry.dict 10]
        = [10, 10, 10].map ContribEntry.dict := rfl
    rw [busFactorEvaluate, if_neg h, Option.getD_some, h10,
      busFactorFromContributors_counts [10, 10, 10] (by simp)]
    have hsort : sortDesc [10, 10, 10] = [10, 10, 10] := rfl
    rw [hsort]
    norm_num [listMax, listMin]

/-- C8 witness: the theorem applied to concrete inputs — author "google"
scores 1.0 over arbitrary contributor data, an unknown author with no
contributors scores 0.0, skewed counts [90, 10] score (1/9) * 0.2, and even
counts [10, 10, 10] score 0.3. -/
theorem busFactor_spec_witness :
    busFactorEvaluate "google" (some [ContribEntry.dict 1]) = .ok 1 ∧
    busFactorEvaluate "someone" none = .ok 0 ∧
    busFactorEvaluate "someone" (some ([90, 10].map ContribEntry.dict))
      = .ok ((if listMax ((sortDesc [90, 10]).take 10) = 0 then 0
              else (listMin ((sortDesc [90, 10]).take 10) : ℚ)
                    / (listMax ((sortDesc [90, 10]).take 10) : ℚ)) *
             ((min ([90, 10] : List ℕ).length 10 : ℕ) * (0.1 : ℚ))) ∧
    busFactorEvaluate "someone"
        (some [ContribEntry.dict 10, ContribEntry.dict 10, ContribEntry.dict 10])
      = .ok (3/10) :=
  ⟨busFactor_spec.1 "google" (some [ContribEntry.dict 1]) (by decide),
   (busFactor_spec.2.1 "someone" (by decide)).1,
   busFactor_spec.2.2.1 "someone" [90, 10] (by decide) (by decide),
   busFactor_spec.2.2.2 "someone" (by decide)⟩

/-! ## GitHub metadata cache and code-quality metric
(src/Model.py github_metadata, src/metrics/CodeQualityMetric.py) -/

/-- The GitHub repository metadata fields the embedded metrics read. -/
structure GhMeta where
  stargazers_count : ℕ
  forks_count : ℕ
  commits_count : ℕ
  clone_url : Option String
  contributors : List ContribEntry
deriving DecidableEq, Repr

/-- The per-artifact mutable state the metrics share: the memoized backing
field `Model._github_metadata` (Model.py line 34), `None` until the
`github_metadata` property first runs its fetch. -/
structure ArtifactState where
  ghCache : Option GhMeta
deriving DecidableEq, Repr

/-- The `Model.github_metadata` property (Model.py lines 72-78),
parametrized by the (deterministic, per-artifact) fetcher result: an
unpopulated backing field triggers the fetch and stores its result; a
populated one is returned unchanged. -/
def github_metadata (fetchResult : Option GhMeta) (s : ArtifactState) :
    Option GhMeta × ArtifactState :=
  match s.ghCache with
  | some m => (some m, s)
  | none => (fetchResult, { ghCache := fetchResult })

/-- `CodeQualityMetric._calculate_popularity_score` (CodeQualityMetric.py
lines 109-117): `min(stars // 50 * 0.01, 0.1) + min(forks // 10 * 0.01,
0.1)`, with Python floor division. -/
def popularityScore (gh : GhMeta) : ℚ :=
  min ((gh.stargazers_count / 50 : ℕ) * (0.01 : ℚ)) 0.1 +
  min ((gh.forks_count / 10 : ℕ) * (0.01 : ℚ)) 0.1

/-- `CodeQualityMetric._calculate_commit_score` (CodeQualityMetric.py lines
119-130): `min(total_commits * 0.001, 0.3)`. -/
def commitScore (gh : GhMeta) : ℚ :=
  min ((gh.commits_count : ℚ) * (0.001 : ℚ)) 0.3

/-- `CodeQualityMetric.evaluate` (CodeQualityMetric.py lines 54-107),
parametrized by the outcome of the repository clone-and-analysis (the
test/doc sub-scores when the clone succeeds, `none` when it fails or
raises). The decisive feature: the method reads the raw backing field
`model._github_metadata` via `getattr` — it never invokes the
`github_metadata` property — so an unpopulated cache short-circuits to 0.0
without fetching, and the state is never mutated. -/
def codeQualityEvaluate (cloneAnalysis : GhMeta → Option (ℚ × ℚ))
    (s : ArtifactState) : ℚ :=
  match s.ghCache with
  | none => 0
  | some gh =>
      let pop := popularityScore gh
      let com := commitScore gh
      match gh.clone_url with
      | none => min (pop + com) 1
      | some _ =>
          match cloneAnalysis gh with
          | none => min (pop + com) 1
          | some scores => min (pop + com + scores.1 + scores.2) 1

/-- `BusFactorMetric.evaluate` as a state transformer over the shared
metadata cache: the large-company author check precedes any GitHub access;
otherwise the `github_metadata` property runs (populating the cache) and the
contributor computation proceeds on its result. -/
def busFactorStep (author : String) (fetchResult : Option GhMeta)
    (s : ArtifactState) : Except PyError ℚ × ArtifactState :=
  if author ∈ LARGE_COMPANIES then (.ok 1, s)
  else
    let fetched := github_metadata fetchResult s
    (busFactorFromContributors ((fetched.1.map GhMeta.contributors).getD []),
     fetched.2)

/-- The concrete GitHub metadata of the C10 counterexample: a repository
with 5000 stars, 1000 forks, 300 commits, no clone URL and three even
contributors. -/
def gh0 : GhMeta :=
  ⟨5000, 1000, 300, none,
   [ContribEntry.dict 10, ContribEntry.dict 10, ContribEntry.dict 10]⟩

/-- C10 counterexample: with fixed metadata (the fetcher deterministically
returns `gh0`), the code-quality score depends on evaluation order — run
first (cache unpopulated) it returns 0.0, run after `BusFactorMetric` has
populated the cache it returns 0.5 — so metric scores are not independent of
the order in which the catalogue's metrics are evaluated. -/
theorem codeQuality_order_dependent :
    codeQualityEvaluate (fun _ => none) ⟨none⟩ = 0 ∧
    codeQualityEvaluate (fun _ => none)
        (busFactorStep "someone" (some gh0) ⟨none⟩).2 = 1/2 ∧
    (0 : ℚ) ≠ 1/2 := by
  refine ⟨rfl, ?_, by norm_num⟩
  show codeQualityEvaluate (fun _ => none) ⟨some gh0⟩ = 1/2
  show min (popularityScore gh0 + commitScore gh0) 1 = 1/2
  norm_num [popularityScore, commitScore, gh0]

/-- C10 (amended): evaluation order is not neutral for the code-quality
metric — it reads the raw `_github_metadata` backing field without
triggering the fetch, so before any cache-populating metric has run it
scores 0.0, while after `BusFactorMetric` (for a non-large-company author)
has populated the cache it scores from the fetched metadata. -/
theorem codeQuality_cache_dependence :
    (∀ cloneAnalysis, codeQualityEvaluate cloneAnalysis ⟨none⟩ = 0) ∧
    (∀ author fetchResult s, author ∉ LARGE_COMPANIES → s.ghCache = none →
        (busFactorStep author fetchResult s).2.ghCache = fetchResult) ∧
    (∀ cloneAnalysis gh, gh.clone_url = none →
        codeQualityEvaluate cloneAnalysis ⟨some gh⟩
          = min (popularityScore gh + commitScore gh) 1) := by
  refine ⟨fun _ => rfl, ?_, ?_⟩
  · intro author fetchResult s h hc
    rw [busFactorStep, if_neg h]
    show (github_metadata fetchResult s).2.ghCache = fetchResult
    rw [github_metadata, hc]
  · intro cloneAnalysis gh h
    show (match gh.clone_url with
      | none => min (popularityScore gh + commitScore gh) 1
      | some _ =>
          match cloneAnalysis gh with
          | none => min (popularityScore gh + commitScore gh) 1
          | some scores =>
              min (popularityScore gh + commitScore gh + scores.1 + scores.2) 1)
        = min (popularityScore gh + commitScore gh) 1
    rw [h]

/-- C10 amended-theorem witness: applied to the concrete metadata `gh0` —
a fresh cache yields 0.0, the bus-factor step fills the cache with the fetch
result, and the populated cache yields the metadata-based base score. -/
theorem codeQuality_cache_dependence_witness :
    codeQualityEvaluate (fun _ => none) ⟨none⟩ = 0 ∧
    (busFactorStep "someone" (some gh0) ⟨none⟩).2.ghCache = some gh0 ∧
    codeQualityEvaluate (fun _ => none) ⟨some gh0⟩
      = min (popularityScore gh0 + commitScore gh0) 1 :=
  ⟨codeQuality_cache_dependence.1 (fun _ => none),
   codeQuality_cache_dependence.2.1 "someone" (some gh0) ⟨none⟩ (by decide) rfl,
   codeQuality_cache_dependence.2.2 (fun _ => none) gh0 rfl⟩

end ModelHub
